import Mathlib

/-!
# Verification of the recognition-app detection pipeline

Shallow embedding of `src/project/project/model/detect.py`:

* the zone-crossing tracker and gap debouncer inside `run`
  (detect.py 125-130, 181-204, 294-300),
* the product identity resolver `PredictedProducts` / `findProductIndex` /
  `findMaxTwoClass` / `productDetection` (detect.py 352-445),
* the notification dispatcher `remove_plural` / `send_request`
  (detect.py 311-349), including the item-name extraction pattern.

Python floats are modelled as exact rationals (`ℚ`): every float operation in
the embedded code is a comparison, an addition/subtraction of values read from
detections, or a division by a small integer, and the claims under study do not
hinge on rounding behavior.  Python ints are `ℕ` where the source value is a
non-negative counter and `ℤ` where a subtraction may go negative.
-/

namespace Detect

/-- A detection's normalized box center `(x, y)` (the `x, y` of the
`xywh` unpacking, detect.py 184). -/
abbrev Point := ℚ × ℚ

/-- The mutable tracking state of `run` (detect.py 127-129):
`noObjectCount`, `enter_coordinates`, `exit_coordinates`. -/
structure Session where
  enter_coordinates : Option Point
  exit_coordinates : Option Point
  noObjectCount : ℕ
deriving DecidableEq

/-- Initial state at loop start (detect.py 127-129): both anchors `None`,
counter `0`. -/
def initialSession : Session := ⟨none, none, 0⟩

/-- One iteration of the per-detection loop (detect.py 181-198):
if `enter_coordinates is None and (0.1 <= x <= 0.9)` set the enter anchor and
zero the counter, otherwise (the bare `else`) overwrite the exit anchor. -/
def processDetection (st : Session) (d : Point) : Session :=
  if st.enter_coordinates = none ∧ (1 : ℚ)/10 ≤ d.1 ∧ d.1 ≤ (9 : ℚ)/10 then
    { st with enter_coordinates := some d, noObjectCount := 0 }
  else
    { st with exit_coordinates := some d }

/-- The crossing check after the detection loop (detect.py 201-204):
if both anchors are set and `abs(exit.x - enter.x) >= 0.6`, clear both anchors
and report the displacement `exit - enter`. -/
def checkCrossing (st : Session) : Session × Option Point :=
  match st.enter_coordinates, st.exit_coordinates with
  | some e, some ex =>
      if (6 : ℚ)/10 ≤ |ex.1 - e.1| then
        ({ st with enter_coordinates := none, exit_coordinates := none },
          some (ex.1 - e.1, ex.2 - e.2))
      else (st, none)
  | _, _ => (st, none)

/-- One frame of the main loop, restricted to the tracking state: a frame with
detections runs the per-detection loop then the crossing check
(detect.py 169, 181-204); a frame with no detections runs the debounce code
(detect.py 294-300): increment `noObjectCount`, and if it is now `>= 10` while
`enter_coordinates is not None`, zero the counter and clear both anchors.
The detection list is given in the order the `for ... in reversed(det)` loop
visits it. -/
def processFrame (st : Session) (dets : List Point) : Session × Option Point :=
  match dets with
  | [] =>
      if 10 ≤ st.noObjectCount + 1 ∧ st.enter_coordinates ≠ none then
        (initialSession, none)
      else
        ({ st with noObjectCount := st.noObjectCount + 1 }, none)
  | d :: ds => checkCrossing ((d :: ds).foldl processDetection st)

/-- A whole run over a list of frames, collecting the crossing events. -/
def runFrames (st : Session) : List (List Point) → Session × List Point
  | [] => (st, [])
  | f :: fs =>
      let r := processFrame st f
      let rest := runFrames r.1 fs
      (rest.1, match r.2 with | some d => d :: rest.2 | none => rest.2)

/-- States the tracking loop can actually be in: the initial state and
everything `processFrame` produces from a reachable state. -/
inductive Reachable : Session → Prop
  | init : Reachable initialSession
  | step (st : Session) (f : List Point) : Reachable st → Reachable (processFrame st f).1

/-- Spec-side firing condition (spec §8.3): both anchors set and
`|exitPoint.x − enterPoint.x| ≥ 0.6`. -/
def crossingReady (st : Session) : Prop :=
  ∃ e ex, st.enter_coordinates = some e ∧ st.exit_coordinates = some ex ∧
    (6 : ℚ)/10 ≤ |ex.1 - e.1|

/-- The vote record of the resolver, class `PredictedProducts`
(detect.py 352-365): a product name with its sample count and summed
confidence. -/
structure PredictedProducts where
  productName : String
  count : ℕ
  totalPred : ℚ
deriving DecidableEq

/-- `PredictedProducts.getPred` (detect.py 366-368): the name together with
the mean confidence `totalPred / count`. -/
def getPred (p : PredictedProducts) : String × ℚ :=
  (p.productName, p.totalPred / (p.count : ℚ))

/-- `findProductIndex` (detect.py 370-374): index of the first entry with the
given name, `-1` when absent. -/
def findProductIndex : List PredictedProducts → String → Int
  | [], _ => -1
  | p :: ps, n =>
      if p.productName = n then 0
      else
        let r := findProductIndex ps n
        if r = -1 then -1 else r + 1

/-- One iteration of the aggregation loop in `productDetection`
(detect.py 417-423): if `findProductIndex` finds the name, bump that entry by
`set(1, pred)`; otherwise append `PredictedProducts(name, 1, pred)`.  Since
each name occurs at most once in the accumulator, updating the first entry with
a matching name is exactly the `predUniqueCls[index].set(...)` of the source. -/
def addSample : List PredictedProducts → String → ℚ → List PredictedProducts
  | [], n, c => [⟨n, 1, c⟩]
  | p :: ps, n, c =>
      if p.productName = n then ⟨p.productName, p.count + 1, p.totalPred + c⟩ :: ps
      else p :: addSample ps n c

/-- The confidence filter of `productDetection` (detect.py 404-410): keep the
samples with `float(prediction) >= 0.50`.  A sample is a `(name, confidence)`
pair: the source splits each buffered label string `"<name> <conf>"` back into
these two components, a round trip on well-formed labels. -/
def filterSamples (labels : List (String × ℚ)) : List (String × ℚ) :=
  labels.filter (fun sample => (1 : ℚ)/2 ≤ sample.2)

/-- The aggregate of `productDetection` (detect.py 417-423): the vote list
`predUniqueCls`, built by folding the filtered samples in order. -/
def predUniqueCls (labels : List (String × ℚ)) : List PredictedProducts :=
  (filterSamples labels).foldl (fun acc sample => addSample acc sample.1 sample.2) []

/-- The scan loop of `findMaxTwoClass` (detect.py 385-394), carrying
`(maxIndex1_se, maxCount1_se)` and `(maxIndex2_se, maxCount2_se)`:
`if count > maxCount1: update first; elif count > maxCount2: update second`.
Note the `elif`: a displaced first maximum is never demoted to second place. -/
def findMaxTwoLoop : List PredictedProducts → ℕ → ℕ × ℕ → ℕ × ℕ → ℕ × ℕ
  | [], _, m1, m2 => (m1.1, m2.1)
  | p :: ps, i, m1, m2 =>
      if m1.2 < p.count then findMaxTwoLoop ps (i + 1) (i, p.count) m2
      else if m2.2 < p.count then findMaxTwoLoop ps (i + 1) m1 (i, p.count)
      else findMaxTwoLoop ps (i + 1) m1 m2

/-- `findMaxTwoClass` (detect.py 376-394): when the vote list has exactly two
entries return `(0, 1)` immediately, otherwise run the scan loop with all four
accumulators initialized to `0`. -/
def findMaxTwoClass (ps : List PredictedProducts) : ℕ × ℕ :=
  if ps.length = 2 then (0, 1)
  else findMaxTwoLoop ps 0 (0, 0) (0, 0)

/-- The winner computed by `productDetection` (detect.py 396-445): with more
than one vote entry, take the two contender indices from `findMaxTwoClass`; if
the count difference (Python int subtraction, hence `ℤ`) exceeds 3 the first
contender wins, otherwise the contender with the larger mean confidence wins,
an exact tie going to the first compared (`maxName1_se if maxPred_se ==
maxPred1_se else maxName2_se`).  With exactly one entry that entry wins; with
none there is no winner.  The Python function computes this winner into
`maxName_se` / `predUniqueCls[maxIndex1_se]` / `predUniqueCls[0]` (visible in
its commented-out prints) but has no `return` statement, so the Python call
itself evaluates to `None`; that gap is recorded under claim C6. -/
def productDetection (labels : List (String × ℚ)) : Option String :=
  let cls := predUniqueCls labels
  if 1 < cls.length then
    let mi := findMaxTwoClass cls
    let p1 := cls.getD mi.1 ⟨"", 0, 0⟩
    let p2 := cls.getD mi.2 ⟨"", 0, 0⟩
    if 3 < (p1.count : ℤ) - (p2.count : ℤ) then some p1.productName
    else
      let q1 := getPred p1
      let q2 := getPred p2
      if max q1.2 q2.2 = q1.2 then some q1.1 else some q2.1
  else if cls.length = 1 then
    some ((cls.getD 0 ⟨"", 0, 0⟩).productName)
  else none

/-- The allow-list `items_to_check` of `remove_plural` (detect.py 313-317). -/
def items_to_check : List String :=
  ["Ülker Salty Pretzels", "Doğadan Sage 20s", "Capri-Sun Safari Fruits"]

/-- The final value of the local variable `word` inside `remove_plural`
(detect.py 324-328): for an allow-list name ending in `"ss"`
(`word.endswith("ss")`, i.e. the last two characters are `s`) drop one
trailing character, for any other allow-list name leave it alone, and for
every other name drop the trailing character (`word[:-1]`).  Both string
operations act on the character list. -/
def remove_plural_word (word : String) : String :=
  if items_to_check.contains word then
    if word.data.reverse.take 2 = ['s', 's'] then String.mk word.data.dropLast
    else word
  else String.mk word.data.dropLast

/-- The value of a call `remove_plural(word)` (detect.py 311-328): the body
only rebinds the local `word` (to `remove_plural_word word`) and has no
`return` statement, so every call returns `None`. -/
def remove_plural (word : String) : Option String :=
  let _ := remove_plural_word word
  none

/-- Python's `\s` class on the characters that can occur here (ASCII
whitespace). -/
def isSpaceChar (c : Char) : Bool :=
  c = ' ' || c = '\t' || c = '\n' || c = '\r' || c.toNat = 11 || c.toNat = 12

/-- Match `\d+` at the head: at least one digit, consuming the maximal digit
run.  Since every later token of the pattern starts with a non-digit, maximal
munch agrees with the backtracking semantics of `re`. -/
def expectDigitsPlus : List Char → Option (List Char)
  | c :: cs => if c.isDigit then some (cs.dropWhile Char.isDigit) else none
  | [] => none

/-- Match one literal character at the head. -/
def expectChar (x : Char) : List Char → Option (List Char)
  | c :: cs => if c = x then some cs else none
  | [] => none

/-- Match `\s` at the head. -/
def expectSpace : List Char → Option (List Char)
  | c :: cs => if isSpaceChar c then some cs else none
  | [] => none

/-- The lazy tail of `(.+?)(?=,)` with `acc` (reversed) already captured: if
the next character is `,` the lookahead succeeds and the capture is done; a
newline can neither extend the capture (`.`) nor satisfy the lookahead; any
other character is appended and the scan continues. -/
def lazyCaptureGo (acc : List Char) : List Char → Option String
  | c :: cs =>
      if c = ',' then some (String.mk acc.reverse)
      else if c = '\n' then none
      else lazyCaptureGo (c :: acc) cs
  | [] => none

/-- `(.+?)(?=,)`: the shortest non-empty newline-free capture followed by a
comma. -/
def lazyCapture : List Char → Option String
  | c :: cs => if c = '\n' then none else lazyCaptureGo [c] cs
  | [] => none

/-- Match the full pattern `\d:\s\d+x\d+\s\d+\s(.+?)(?=,)` (detect.py 331)
anchored at the head of the character list, returning group 1. -/
def matchAt : List Char → Option String
  | d :: c :: w :: rest =>
      if d.isDigit ∧ c = ':' ∧ isSpaceChar w then
        (expectDigitsPlus rest).bind fun r1 =>
          (expectChar 'x' r1).bind fun r2 =>
            (expectDigitsPlus r2).bind fun r3 =>
              (expectSpace r3).bind fun r4 =>
                (expectDigitsPlus r4).bind fun r5 =>
                  (expectSpace r5).bind fun r6 =>
                    lazyCapture r6
      else none
  | _ => none

/-- `re.search` over the pattern: try the anchored match at each start
position from left to right. -/
def searchList : List Char → Option String
  | [] => none
  | c :: cs =>
      match matchAt (c :: cs) with
      | some r => some r
      | none => searchList cs

/-- `re.search(pattern, s)` with `group(1)` (detect.py 331-337). -/
def searchPattern (s : String) : Option String := searchList s.data

/-- The JSON body of the dispatcher's POST (detect.py 341-344):
`{"cashierId": ..., "itemName": ...}`. -/
structure PostData where
  cashierId : ℤ
  itemName : String
deriving DecidableEq

/-- `send_request` (detect.py 330-349), up to the point where the POST is
issued: its first component is the POST body (`none` = no request issued at
all), its second the console output produced before the request.  On a match
the extracted `result` is passed to `remove_plural` with the returned value
discarded (detect.py 338), the detection line is printed, and the POST body
carries `result` itself.  On no match the function falls through: no request,
no output.  The post-response logging (detect.py 346-349) depends on the
network response and is outside this model. -/
def send_request (cashier_id : ℤ) (s : String) : Option PostData × List String :=
  match searchPattern s with
  | some result =>
      let _ := remove_plural result
      (some ⟨cashier_id, result⟩, [result ++ " is detected. Sending request..."])
  | none => (none, [])

/-- Concrete buffer for C2's counterexample: three samples over two distinct
class names, all above the confidence filter. -/
def c2SampleBuffer : List (String × ℚ) := [("A", 3/5), ("A", 7/10), ("B", 9/10)]

/-- Concrete buffer for C2's witness: seven samples over two distinct class
names with very unequal vote counts (A once, B six times). -/
def c2SkewBuffer : List (String × ℚ) :=
  [("A", 3/5), ("B", 9/10), ("B", 9/10), ("B", 9/10), ("B", 9/10), ("B", 9/10),
    ("B", 9/10)]

/-- Concrete buffer for C3: five samples of A at confidence 0.9, three of B at
0.55, seven of C at 0.6, all passing the filter. -/
def c3Buffer : List (String × ℚ) :=
  [("A", 9/10), ("A", 9/10), ("A", 9/10), ("A", 9/10), ("A", 9/10),
    ("B", 11/20), ("B", 11/20), ("B", 11/20),
    ("C", 3/5), ("C", 3/5), ("C", 3/5), ("C", 3/5), ("C", 3/5), ("C", 3/5),
    ("C", 3/5)]

/-- The label buffer of spec §8.5, used by C6. -/
def c6Buffer : List (String × ℚ) := [("A", 3/5), ("A", 7/10), ("B", 2/5), ("B", 9/10)]

/- ### Helper lemmas -/

theorem processFrame_nil (st : Session) :
    processFrame st [] =
      if 10 ≤ st.noObjectCount + 1 ∧ st.enter_coordinates ≠ none then
        (initialSession, none)
      else ({ st with noObjectCount := st.noObjectCount + 1 }, none) := rfl

theorem processFrame_cons (st : Session) (d : Point) (ds : List Point) :
    processFrame st (d :: ds) = checkCrossing ((d :: ds).foldl processDetection st) := rfl

theorem foldl_enter_some (dets : List Point) (st : Session)
    (h : st.enter_coordinates ≠ none) :
    (dets.foldl processDetection st).enter_coordinates = st.enter_coordinates ∧
      (dets.foldl processDetection st).noObjectCount = st.noObjectCount := by
  induction dets generalizing st with
  | nil => exact ⟨rfl, rfl⟩
  | cons d ds ih =>
      simp only [List.foldl_cons]
      have hcond : ¬ (st.enter_coordinates = none ∧ (1 : ℚ)/10 ≤ d.1 ∧ d.1 ≤ (9 : ℚ)/10) :=
        fun hc => h hc.1
      rw [processDetection, if_neg hcond]
      exact ih { st with exit_coordinates := some d } h

theorem foldl_enter_fixed (dets : List Point) (st : Session)
    (h : (dets.foldl processDetection st).enter_coordinates = st.enter_coordinates) :
    (dets.foldl processDetection st).noObjectCount = st.noObjectCount := by
  induction dets generalizing st with
  | nil => rfl
  | cons d ds ih =>
      simp only [List.foldl_cons] at h ⊢
      by_cases hc : st.enter_coordinates = none ∧ (1 : ℚ)/10 ≤ d.1 ∧ d.1 ≤ (9 : ℚ)/10
      · rw [processDetection, if_pos hc] at h
        have h2 := foldl_enter_some ds
          { st with enter_coordinates := some d, noObjectCount := 0 } (by simp)
        rw [h2.1] at h
        rw [hc.1] at h
        simp at h
      · rw [processDetection, if_neg hc] at h ⊢
        exact ih _ h

theorem checkCrossing_count (st : Session) :
    (checkCrossing st).1.noObjectCount = st.noObjectCount := by
  unfold checkCrossing
  rcases h1 : st.enter_coordinates with _ | e <;>
    rcases h2 : st.exit_coordinates with _ | ex <;> simp
  split <;> rfl

theorem checkCrossing_isSome_iff (st : Session) :
    (checkCrossing st).2.isSome ↔ crossingReady st := by
  unfold checkCrossing crossingReady
  rcases h1 : st.enter_coordinates with _ | e <;>
    rcases h2 : st.exit_coordinates with _ | ex <;> simp
  split <;> rename_i h
  · simpa using h
  · simpa using h

theorem checkCrossing_fired (st : Session) (h : (checkCrossing st).2.isSome) :
    (checkCrossing st).1.enter_coordinates = none ∧
      (checkCrossing st).1.exit_coordinates = none := by
  revert h
  unfold checkCrossing
  rcases h1 : st.enter_coordinates with _ | e <;>
    rcases h2 : st.exit_coordinates with _ | ex <;> simp
  split
  · simp
  · simp

theorem checkCrossing_not_fired_eq (st : Session)
    (h : ¬ (checkCrossing st).2.isSome) : (checkCrossing st).1 = st := by
  revert h
  unfold checkCrossing
  split
  · split_ifs with hc
    · intro hcontra; simp at hcontra
    · intro _; rfl
  · intro _; rfl

theorem checkCrossing_not_ready (st : Session) :
    ¬ crossingReady (checkCrossing st).1 := by
  by_cases hs : (checkCrossing st).2.isSome
  · obtain ⟨h1, -⟩ := checkCrossing_fired st hs
    rintro ⟨a, b, hab, -, -⟩
    rw [h1] at hab
    cases hab
  · rw [checkCrossing_not_fired_eq st hs]
    exact fun hr => hs ((checkCrossing_isSome_iff st).mpr hr)

theorem processFrame_not_ready (st : Session) (f : List Point)
    (h : ¬ crossingReady st) : ¬ crossingReady (processFrame st f).1 := by
  cases f with
  | nil =>
      rw [processFrame_nil]
      split_ifs with hc
      · rintro ⟨a, b, hab, -, -⟩
        simp [initialSession] at hab
      · rintro ⟨a, b, hab, hb, hle⟩
        exact h ⟨a, b, hab, hb, hle⟩
  | cons d ds =>
      rw [processFrame_cons]
      exact checkCrossing_not_ready _

theorem reachable_not_ready (st : Session) (h : Reachable st) :
    ¬ crossingReady st := by
  induction h with
  | init => simp [crossingReady, initialSession]
  | step st f _ ih => exact processFrame_not_ready st f ih

/- ### Claim theorems

The concrete evaluations below go through `decide`; the `Rat` arithmetic
operations are marked irreducible in Batteries, so they are locally restored
to their definitional transparency for this section. -/

section ClaimTheorems

attribute [local semireducible] Rat.add Rat.sub Rat.mul Rat.inv

/-- Claim C1: on every frame processed from a reachable tracker state, a
crossing event fires if and only if, after iterating the frame's detections,
both anchors are set with `|exitPoint.x − enterPoint.x| ≥ 0.6`
(`crossingReady`); and whenever the event fires, both anchors are cleared
before the next frame. -/
theorem crossing_event_iff (st : Session) (h : Reachable st)
    (dets : List Point) :
    ((processFrame st dets).2.isSome ↔
      crossingReady (dets.foldl processDetection st)) ∧
    ((processFrame st dets).2.isSome →
      (processFrame st dets).1.enter_coordinates = none ∧
        (processFrame st dets).1.exit_coordinates = none) := by
  cases dets with
  | nil =>
      have hnr := reachable_not_ready st h
      rw [processFrame_nil]
      split_ifs with hc
      · exact ⟨by simpa using hnr, by simp⟩
      · exact ⟨by simpa using hnr, by simp⟩
  | cons d ds =>
      rw [processFrame_cons]
      exact ⟨checkCrossing_isSome_iff _, checkCrossing_fired _⟩

/-- Witness for C1 at the initial state and a one-detection frame. -/
theorem crossing_event_iff_witness :
    ((processFrame initialSession [((1 : ℚ)/2, 1/2)]).2.isSome ↔
      crossingReady (List.foldl processDetection initialSession [((1 : ℚ)/2, 1/2)])) ∧
    ((processFrame initialSession [((1 : ℚ)/2, 1/2)]).2.isSome →
      (processFrame initialSession [((1 : ℚ)/2, 1/2)]).1.enter_coordinates = none ∧
        (processFrame initialSession [((1 : ℚ)/2, 1/2)]).1.exit_coordinates = none) :=
  crossing_event_iff initialSession Reachable.init [((1 : ℚ)/2, 1/2)]

/-- Claim C4: an empty frame increments the counter by exactly 1 unless the
incremented counter has reached 10 while the enter anchor is set, in which
case the session is fully reset with no event; and a non-empty frame that
leaves the enter anchor unchanged (so it only updated the exit anchor) never
resets the counter. -/
theorem empty_frame_debounce (st : Session) (dets : List Point) :
    ((10 ≤ st.noObjectCount + 1 ∧ st.enter_coordinates ≠ none) →
      processFrame st [] = (initialSession, none)) ∧
    (¬ (10 ≤ st.noObjectCount + 1 ∧ st.enter_coordinates ≠ none) →
      processFrame st [] =
        ({ st with noObjectCount := st.noObjectCount + 1 }, none)) ∧
    (dets ≠ [] →
      (dets.foldl processDetection st).enter_coordinates = st.enter_coordinates →
      (processFrame st dets).1.noObjectCount = st.noObjectCount) := by
  refine ⟨fun hc => ?_, fun hc => ?_, fun hne hfix => ?_⟩
  · rw [processFrame_nil, if_pos hc]
  · rw [processFrame_nil, if_neg hc]
  · cases dets with
    | nil => exact absurd rfl hne
    | cons d ds =>
        rw [processFrame_cons, checkCrossing_count]
        exact foldl_enter_fixed _ _ hfix

/-- Witness for C4: a timed-out empty frame resets; a young empty frame
increments; a non-empty frame that only updates the exit anchor keeps the
counter at 3. -/
theorem empty_frame_debounce_witness :
    (processFrame (⟨some ((1 : ℚ)/2, 1/2), none, 9⟩ : Session) [] =
      (initialSession, none)) ∧
    (processFrame (⟨none, none, 4⟩ : Session) [] =
      ((⟨none, none, 5⟩ : Session), none)) ∧
    ((processFrame (⟨some ((1 : ℚ)/2, 1/2), none, 3⟩ : Session)
        [((19 : ℚ)/20, 1/2)]).1.noObjectCount = 3) :=
  ⟨(empty_frame_debounce (⟨some ((1 : ℚ)/2, 1/2), none, 9⟩ : Session) []).1
      (by simp),
    (empty_frame_debounce (⟨none, none, 4⟩ : Session) []).2.1 (by simp),
    (empty_frame_debounce (⟨some ((1 : ℚ)/2, 1/2), none, 3⟩ : Session)
        [((19 : ℚ)/20, 1/2)]).2.2 (by simp) (by decide)⟩

/-- Counterexample to claim C7: a concrete five-frame run (enter at
`(0.2, 0.5)`, three empty frames, exit at `(0.85, 0.5)`) fires exactly one
crossing event on its final frame, yet the final `noObjectCount` is 3, not 0:
firing clears only the two anchors. -/
theorem crossing_keeps_counter_counterexample :
    runFrames initialSession
        [[((1 : ℚ)/5, 1/2)], [], [], [], [((17 : ℚ)/20, 1/2)]] =
      ((⟨none, none, 3⟩ : Session), [((13 : ℚ)/20, 0)]) ∧ (3 : ℕ) ≠ 0 := by
  exact ⟨by decide, by decide⟩

/-- Claim C7 as amended: whenever a crossing event fires, the two anchors are
cleared, but `noObjectCount` is left at whatever value the frame's detection
iteration produced — it is not reset by the firing itself. -/
theorem crossing_clears_anchors_only (st : Session) (dets : List Point)
    (h : (processFrame st dets).2.isSome) :
    (processFrame st dets).1.enter_coordinates = none ∧
    (processFrame st dets).1.exit_coordinates = none ∧
    (processFrame st dets).1.noObjectCount =
      (dets.foldl processDetection st).noObjectCount := by
  cases dets with
  | nil =>
      rw [processFrame_nil] at h
      exfalso
      revert h
      split_ifs <;> simp
  | cons d ds =>
      rw [processFrame_cons] at h ⊢
      have h2 := checkCrossing_fired _ h
      exact ⟨h2.1, h2.2, checkCrossing_count _⟩

/-- Witness for the amended C7: a firing frame from an in-progress session
with counter 3 keeps the counter at the post-iteration value. -/
theorem crossing_clears_anchors_only_witness :
    (processFrame (⟨some ((1 : ℚ)/5, 1/2), none, 3⟩ : Session)
        [((17 : ℚ)/20, 1/2)]).1.enter_coordinates = none ∧
    (processFrame (⟨some ((1 : ℚ)/5, 1/2), none, 3⟩ : Session)
        [((17 : ℚ)/20, 1/2)]).1.exit_coordinates = none ∧
    (processFrame (⟨some ((1 : ℚ)/5, 1/2), none, 3⟩ : Session)
        [((17 : ℚ)/20, 1/2)]).1.noObjectCount =
      (List.foldl processDetection (⟨some ((1 : ℚ)/5, 1/2), none, 3⟩ : Session)
        [((17 : ℚ)/20, 1/2)]).noObjectCount :=
  crossing_clears_anchors_only (⟨some ((1 : ℚ)/5, 1/2), none, 3⟩ : Session)
    [((17 : ℚ)/20, 1/2)] (by decide)

/-- Claim C8, evaluated at its failing input: a detection with center
`(0.05, 0.5)` arriving while the session is Idle (enter anchor unset) takes
the bare `else` branch and sets the exit anchor, because the `else` also
catches the case where the enter anchor is unset but the center lies outside
`[0.1, 0.9]` — `0.05 < 0.1`. -/
theorem exit_set_while_idle :
    processDetection initialSession ((1 : ℚ)/20, 1/2) =
      (⟨none, some ((1 : ℚ)/20, 1/2), 0⟩ : Session) ∧
    ((1 : ℚ)/20 < 1/10) := by
  exact ⟨by decide, by decide⟩

/-- Claim C9: the enter anchor changes on a detection exactly when it was
unset and the detection's center x lies in `[0.1, 0.9]`, and in that case the
whole resulting state is the enter anchor set to the center with the
empty-frame counter reset to 0. -/
theorem enter_assignment_characterization (st : Session) (d : Point) :
    (processDetection st d).enter_coordinates ≠ st.enter_coordinates ↔
      st.enter_coordinates = none ∧ (1 : ℚ)/10 ≤ d.1 ∧ d.1 ≤ (9 : ℚ)/10 ∧
        processDetection st d = (⟨some d, st.exit_coordinates, 0⟩ : Session) := by
  unfold processDetection
  split_ifs with hc
  · obtain ⟨h1, h2, h3⟩ := hc
    refine ⟨fun _ => ⟨h1, h2, h3, rfl⟩, fun _ => ?_⟩
    rw [h1]
    simp
  · constructor
    · intro hne
      exact absurd rfl hne
    · rintro ⟨h1, h2, h3, -⟩
      exact absurd ⟨h1, h2, h3⟩ hc

/-- Witness for C9 at a concrete Idle state and an in-zone detection. -/
theorem enter_assignment_characterization_witness :
    ((processDetection (⟨none, none, 5⟩ : Session) ((1 : ℚ)/2, 1/2)).enter_coordinates ≠
        (⟨none, none, 5⟩ : Session).enter_coordinates ↔
      (⟨none, none, 5⟩ : Session).enter_coordinates = none ∧
        (1 : ℚ)/10 ≤ (((1 : ℚ)/2, (1 : ℚ)/2) : Point).1 ∧
        (((1 : ℚ)/2, (1 : ℚ)/2) : Point).1 ≤ (9 : ℚ)/10 ∧
        processDetection (⟨none, none, 5⟩ : Session) ((1 : ℚ)/2, 1/2) =
          (⟨some ((1 : ℚ)/2, 1/2), (⟨none, none, 5⟩ : Session).exit_coordinates, 0⟩ : Session)) :=
  enter_assignment_characterization (⟨none, none, 5⟩ : Session) ((1 : ℚ)/2, 1/2)

/-- Counterexample to claim C2: on a buffer holding three label samples over
two distinct class names (all passing the confidence filter) the short-circuit
guard `len(predUniqueCls) == 2` holds and `findMaxTwoClass` returns `(0, 1)`,
although the literal sample count is 3 both before and after filtering: the
short-circuit keys on distinct class names, not on the total sample count. -/
theorem short_circuit_counterexample :
    (predUniqueCls c2SampleBuffer).length = 2 ∧
    c2SampleBuffer.length ≠ 2 ∧
    (filterSamples c2SampleBuffer).length ≠ 2 ∧
    findMaxTwoClass (predUniqueCls c2SampleBuffer) = (0, 1) := by
  refine ⟨by decide, by decide, by decide, by decide⟩

/-- Claim C2 as amended: the resolver's short-circuit — the first two observed
candidates become the contenders regardless of their vote counts — triggers
exactly when the vote list built after confidence filtering has exactly two
entries, i.e. exactly two distinct class names survive the filter, whatever
the total number of samples. -/
theorem short_circuit_two_classes (labels : List (String × ℚ))
    (h : (predUniqueCls labels).length = 2) :
    findMaxTwoClass (predUniqueCls labels) = (0, 1) := by
  unfold findMaxTwoClass
  rw [if_pos h]

/-- Witness for the amended C2: a seven-sample buffer with one "A" vote and
six "B" votes still yields contenders `(0, 1)` — the first two observed, the
vote counts notwithstanding. -/
theorem short_circuit_two_classes_witness :
    (predUniqueCls c2SkewBuffer).length = 2 ∧
    findMaxTwoClass (predUniqueCls c2SkewBuffer) = (0, 1) :=
  ⟨by decide, short_circuit_two_classes c2SkewBuffer (by decide)⟩

/-- Claim C3, evaluated at its failing input: on votes A(5 samples, mean 0.9),
B(3 samples, mean 0.55), C(7 samples, mean 0.6), the scan of
`findMaxTwoClass` returns indices `(2, 1)` — C and B — although index 0 ("A")
holds the second-highest count 5: when "C" displaces "A" as the running
maximum, the `elif` never demotes "A" into second place.  The count
difference then becomes 7 − 3 = 4 > 3 and "C" wins outright, whereas the
claimed selection (contenders C and A, difference 2 ≤ 3) would compare mean
confidences 0.6 versus 0.9 and let "A" win. -/
theorem max_two_selection_bug :
    predUniqueCls c3Buffer =
      [⟨"A", 5, 9/2⟩, ⟨"B", 3, 33/20⟩, ⟨"C", 7, 21/5⟩] ∧
    findMaxTwoClass (predUniqueCls c3Buffer) = (2, 1) ∧
    productDetection c3Buffer = some "C" := by
  refine ⟨by decide, by decide, by decide⟩

/-- Claim C5, evaluated at its failing input: on the item name
`"Rexona Roll Ons"` the normalization logic computes the stripped name
`"Rexona Roll On"` into its local variable, but `remove_plural` returns
`None`, and `send_request` discards even that return value, so the POST body
carries the unnormalized `"Rexona Roll Ons"`.  For completeness, the
allow-list branch leaves `"Capri-Sun Safari Fruits"` unchanged, as claimed. -/
theorem plural_normalization_dropped :
    remove_plural_word "Rexona Roll Ons" = "Rexona Roll On" ∧
    remove_plural "Rexona Roll Ons" = none ∧
    remove_plural_word "Capri-Sun Safari Fruits" = "Capri-Sun Safari Fruits" ∧
    send_request 7 "0: 384x512 1 Rexona Roll Ons, " =
      (some ⟨7, "Rexona Roll Ons"⟩,
        ["Rexona Roll Ons is detected. Sending request..."]) := by
  refine ⟨by decide, by decide, by decide, by decide⟩

/-- Claim C6, evaluated on the buffer of spec §8.5: filtering at 0.5 keeps
`[("A",0.6),("A",0.7),("B",0.9)]`, the votes are A(count 2, sum 1.3) and
B(count 1, sum 0.9); the count difference 2 − 1 = 1 does not exceed 3, the
mean confidences are 0.65 and 0.9, and the computed winner is `"B"` — but the
Python `productDetection` never returns this value (it has no `return`
statement, and its call sites in `run` are commented out). -/
theorem resolver_two_class_trace :
    filterSamples c6Buffer = [("A", 3/5), ("A", 7/10), ("B", 9/10)] ∧
    predUniqueCls c6Buffer = [⟨"A", 2, 13/10⟩, ⟨"B", 1, 9/10⟩] ∧
    getPred ⟨"A", 2, 13/10⟩ = ("A", 13/20) ∧
    getPred ⟨"B", 1, 9/10⟩ = ("B", 9/10) ∧
    productDetection c6Buffer = some "B" := by
  refine ⟨by decide, by decide, by decide, by decide, by decide⟩

/-- Claim C10: when the frame summary string does not match the item-name
extraction pattern, `send_request` issues no POST and produces no console
output at all. -/
theorem no_match_no_request (cashier_id : ℤ) (s : String)
    (h : searchPattern s = none) :
    send_request cashier_id s = (none, []) := by
  unfold send_request
  rw [h]

/-- Witness for C10 on a malformed summary (the non-webcam summary format,
which lacks the `"0: "` prefix the pattern requires). -/
theorem no_match_no_request_witness :
    searchPattern "384x512 1 Capri-Sun Safari Fruits, " = none ∧
    send_request 7 "384x512 1 Capri-Sun Safari Fruits, " = (none, []) :=
  ⟨by decide, no_match_no_request 7 "384x512 1 Capri-Sun Safari Fruits, " (by decide)⟩

end ClaimTheorems

end Detect
